import Mathlib

/-!
Verification development for the alert evaluation and notification engine of a
host-monitoring backend (Flask application; the engine lives in
`app/alerts/engine.py`, the ingestion parser in `app/webhook.py`).

The Python source is shallowly embedded: rule rows and their optional columns
become a structure with `Option` fields, the module-level `alert_state`
dictionary becomes explicit state passed through the functions, the
`alert_events` table becomes a list of event records, and external side effects
(email/SMS/websocket sends) become an explicit log of send events.  Numeric
metric values and thresholds are modelled as rationals (`Rat`): the source
compares Python numbers with `>`, `<`, `==` and the claims under study do not
depend on floating-point rounding.  Python `None` becomes `none`; the source
repeatedly exploits that `x == None` is `False` for an `int` x, which is
mirrored by `Option` equality against `none`.
-/

/-- One row of `alert_rule_targets` as attached to a rule by
`get_rule_targets` (fields `target_type`, `target_id`). -/
structure Target where
  target_type : String
  target_id : String
deriving DecidableEq

/-- The notification settings attached to a rule by `get_rule_notifications`
(the keys read by the engine: `email_enabled`, `sms_enabled`). -/
structure NotificationConfig where
  email_enabled : Bool
  sms_enabled : Bool
deriving DecidableEq

/-- An alert rule row as produced by `get_all_rules`: the columns of
`alert_rules` read by the engine, plus targets and notification settings.
Optional columns (`breach_count`, `email_threshold`, `email_breach_count`,
`sms_threshold`, `sms_breach_count`) are `Option`s, matching `rule.get(...)`
returning `None`. -/
structure Rule where
  id : String
  name : String
  metric_type : String
  comparison : String
  threshold : Rat
  enabled : Bool
  breach_count : Option Nat
  email_threshold : Option Rat
  email_breach_count : Option Nat
  sms_threshold : Option Rat
  sms_breach_count : Option Nat
  targets : List Target
  notifications : NotificationConfig
deriving DecidableEq

/-- The per-(rule, host) entry of the module-level `alert_state` dictionary
(engine.py lines 48-56): last seen value, last check timestamp, and the three
consecutive-breach counters, plus the two last-sent markers initialised there. -/
structure BreachState where
  last_value : Option Rat
  last_check : Option String
  breach_count : Nat
  sms_breach_count : Nat
  last_sms_sent : Option Rat
  last_email_sent : Option Rat
  email_breach_count : Nat
deriving DecidableEq

/-- The fresh entry created by `record_last_value` when a (rule, host) pair is
seen for the first time (engine.py lines 48-56). -/
def initBreachState : BreachState :=
  { last_value := none
    last_check := none
    breach_count := 0
    sms_breach_count := 0
    last_sms_sent := none
    last_email_sent := none
    email_breach_count := 0 }

/-- `host_matches_rule(rule, host)` (engine.py lines 13-21): the loop returns
`True` on the first target of type `all`, or of type `host` whose id equals
the host, and `False` when the loop ends. -/
def host_matches_rule (rule : Rule) (host : String) : Bool :=
  rule.targets.any fun t =>
    t.target_type == "all" || (t.target_type == "host" && t.target_id == host)

/-- `is_threshold_breached(rule, value, threshold=None)` (engine.py lines
23-37): compares the value against the given threshold (falling back to the
rule main threshold when `None`) according to the rule comparison string;
any unknown comparison yields `False`. -/
def is_threshold_breached (rule : Rule) (value : Rat) (threshold : Option Rat := none) : Bool :=
  let threshold_value := threshold.getD rule.threshold
  if rule.comparison == "above" then value > threshold_value
  else if rule.comparison == "below" then value < threshold_value
  else if rule.comparison == "equal" then value == threshold_value
  else false

/-- `check_email_threshold_breach(rule, host, value)` (engine.py lines 84-113)
acting on the (rule, host) entry: a no-op unless email notifications are
enabled and `email_threshold` is set; otherwise increments
`email_breach_count` on an email-threshold breach and resets it to 0
otherwise. -/
def check_email_threshold_breach (rule : Rule) (value : Rat) (s : BreachState) : BreachState :=
  if !rule.notifications.email_enabled || rule.email_threshold == none then s
  else
    match rule.email_threshold with
    | none => s
    | some et =>
      if is_threshold_breached rule value (some et) then
        { s with email_breach_count := s.email_breach_count + 1 }
      else if s.email_breach_count > 0 then
        { s with email_breach_count := 0 }
      else s

/-- `check_sms_threshold_breach(rule, host, value)` (engine.py lines 135-164)
acting on the (rule, host) entry: a no-op unless SMS notifications are enabled
and `sms_threshold` is set; otherwise increments `sms_breach_count` on an
SMS-threshold breach and resets it to 0 otherwise. -/
def check_sms_threshold_breach (rule : Rule) (value : Rat) (s : BreachState) : BreachState :=
  if !rule.notifications.sms_enabled || rule.sms_threshold == none then s
  else
    match rule.sms_threshold with
    | none => s
    | some st =>
      if is_threshold_breached rule value (some st) then
        { s with sms_breach_count := s.sms_breach_count + 1 }
      else if s.sms_breach_count > 0 then
        { s with sms_breach_count := 0 }
      else s

/-- `record_last_value(rule, host, value, timestamp)` (engine.py lines 39-82)
acting on the (rule, host) entry of `alert_state` (`none` when the pair has no
entry yet): initialises missing state, updates the core breach counter
(increment on breach, reset to 0 otherwise), runs the email and SMS lane
checks, and unconditionally stores the new `last_value` and `last_check`. -/
def record_last_value (rule : Rule) (value : Rat) (timestamp : String)
    (s0 : Option BreachState) : BreachState :=
  let s := s0.getD initBreachState
  let s :=
    if is_threshold_breached rule value then
      { s with breach_count := s.breach_count + 1 }
    else if s.breach_count > 0 then
      { s with breach_count := 0 }
    else s
  let s := check_email_threshold_breach rule value s
  let s := check_sms_threshold_breach rule value s
  { s with last_value := some value, last_check := some timestamp }

/-- `is_email_alert_triggered(rule, host)` (engine.py lines 115-133) acting on
the looked-up (rule, host) entry: `False` unless the email lane is configured
and state exists; otherwise `True` exactly when the email breach counter
equals the required `email_breach_count` (a `None` requirement compares
unequal to any counter, as in Python). -/
def is_email_alert_triggered (rule : Rule) (s0 : Option BreachState) : Bool :=
  if !rule.notifications.email_enabled || rule.email_threshold == none then false
  else
    match s0 with
    | none => false
    | some s => some s.email_breach_count == rule.email_breach_count

/-- `is_sms_alert_triggered(rule, host)` (engine.py lines 166-184), the SMS
counterpart of `is_email_alert_triggered`. -/
def is_sms_alert_triggered (rule : Rule) (s0 : Option BreachState) : Bool :=
  if !rule.notifications.sms_enabled || rule.sms_threshold == none then false
  else
    match s0 with
    | none => false
    | some s => some s.sms_breach_count == rule.sms_breach_count

/-- One row of the `alert_events` table as written by the engine
(`INSERT` at engine.py lines 224-228, `UPDATE` at lines 390-394).  The
generated UUID primary key is modelled by a `Nat` drawn from a counter. -/
structure AlertEvent where
  id : Nat
  rule_id : String
  host : String
  status : String
  value : Rat
  message : String
  resolved_at : Option Rat
deriving DecidableEq

/-- The per-alert entry of `alert_state['alert_cooldowns']` (engine.py lines
256-258, 281-285, 318-322): last email / SMS send times for one alert id.
Send times are rationals, in seconds (mirroring `datetime` arithmetic via
`total_seconds()`). -/
structure CooldownEntry where
  last_email_sent : Option Rat
  last_sms_sent : Option Rat
deriving DecidableEq

/-- An externally visible side effect of the engine: the websocket broadcast
for a new alert, the direct `send_email_alert` / `send_sms_alert` calls on
alert creation, and the cooldown-gated sends for an existing alert. -/
inductive SendEvent where
  | websocket (alertId : Nat)
  | emailDirect (ruleId host : String) (value : Rat)
  | smsDirect (ruleId host : String) (value : Rat)
  | emailExisting (alertId : Nat)
  | smsExisting (alertId : Nat)
deriving DecidableEq

/-- The full mutable state touched by the engine: the in-memory `alert_state`
dictionary (keyed by (rule id, host)), the `alert_events` table, the id
counter standing in for UUID generation, the `alert_cooldowns` dictionary
(keyed by alert id), and the log of performed external sends. -/
structure EngineState where
  alertState : List ((String × String) × BreachState)
  events : List AlertEvent
  nextId : Nat
  cooldowns : List (Nat × CooldownEntry)
  sends : List SendEvent
deriving DecidableEq

/-- The state after `rebuild_alert_state` with an empty `alert_events` table:
everything empty. -/
def initEngineState : EngineState :=
  { alertState := [], events := [], nextId := 0, cooldowns := [], sends := [] }

/-- Dictionary read `alert_state[rule_id][host]` (`none` when absent). -/
def lookupState (m : List ((String × String) × BreachState)) (k : String × String) :
    Option BreachState :=
  m.lookup k

/-- Dictionary write `alert_state[rule_id][host] = v`. -/
def setState (m : List ((String × String) × BreachState)) (k : String × String)
    (v : BreachState) : List ((String × String) × BreachState) :=
  match m with
  | [] => [(k, v)]
  | (k0, v0) :: rest => if k0 == k then (k0, v) :: rest else (k0, v0) :: setState rest k v

/-- Dictionary read `alert_state['alert_cooldowns'].get(alert_id)`. -/
def lookupCooldown (cds : List (Nat × CooldownEntry)) (aid : Nat) : Option CooldownEntry :=
  cds.lookup aid

/-- Write `alert_state['alert_cooldowns'][alert_id]['last_email_sent'] = t`,
creating the per-alert entry when missing (engine.py lines 282-285). -/
def setCooldownEmail (cds : List (Nat × CooldownEntry)) (aid : Nat) (t : Rat) :
    List (Nat × CooldownEntry) :=
  match cds with
  | [] => [(aid, { last_email_sent := some t, last_sms_sent := none })]
  | (a0, e0) :: rest =>
    if a0 == aid then (a0, { e0 with last_email_sent := some t }) :: rest
    else (a0, e0) :: setCooldownEmail rest aid t

/-- Write `alert_state['alert_cooldowns'][alert_id]['last_sms_sent'] = t`,
creating the per-alert entry when missing (engine.py lines 319-322). -/
def setCooldownSms (cds : List (Nat × CooldownEntry)) (aid : Nat) (t : Rat) :
    List (Nat × CooldownEntry) :=
  match cds with
  | [] => [(aid, { last_email_sent := none, last_sms_sent := some t })]
  | (a0, e0) :: rest =>
    if a0 == aid then (a0, { e0 with last_sms_sent := some t }) :: rest
    else (a0, e0) :: setCooldownSms rest aid t

/-- `generate_alert_message(rule, host, value, is_email, is_sms)` (engine.py
lines 403-433).  The numeric rendering of `value` differs from CPython string
formatting, but no property under study depends on the message text. -/
def generate_alert_message (rule : Rule) (value : Rat)
    (is_email : Bool) (is_sms : Bool) : String :=
  let metric_name := (rule.metric_type.replace "." " ").toUpper
  let comparison_symbol :=
    if rule.comparison == "above" then ">"
    else if rule.comparison == "below" then "<"
    else if rule.comparison == "equal" then "=" else "≠"
  let is_percent := rule.metric_type.containsSubstr "percent"
  let formatted_value := if is_percent then toString value ++ "%" else toString value
  let threshold : Rat :=
    if is_email && rule.email_threshold.isSome then rule.email_threshold.getD rule.threshold
    else if is_sms && rule.sms_threshold.isSome then rule.sms_threshold.getD rule.threshold
    else rule.threshold
  let formatted_threshold := if is_percent then toString threshold ++ "%" else toString threshold
  metric_name ++ ": <strong>" ++ formatted_value ++ "</strong> " ++ comparison_symbol ++ " "
    ++ formatted_threshold

/-- The `SELECT id FROM alert_events WHERE rule_id = ... AND host = ... AND
status = 'triggered'` lookup at the top of `handle_alert_trigger` (engine.py
lines 192-198). -/
def find_open_alert (events : List AlertEvent) (rid host : String) : Option AlertEvent :=
  events.find? fun e => e.rule_id == rid && e.host == host && e.status == "triggered"

/-- `send_email_for_existing_alert` (engine.py lines 253-288): when a last
email send time is recorded for the alert and fewer than 30 minutes have
passed, the send is skipped; otherwise the email is sent and the last send
time is updated to `now`.  `now` is in seconds; the source compares
`total_seconds() / 60` against `cooldown_minutes = 30`. -/
def send_email_for_existing_alert (now : Rat) (alertId : Nat) (st : EngineState) :
    EngineState :=
  let doSend : EngineState :=
    { st with
      sends := SendEvent.emailExisting alertId :: st.sends
      cooldowns := setCooldownEmail st.cooldowns alertId now }
  match lookupCooldown st.cooldowns alertId with
  | some entry =>
    match entry.last_email_sent with
    | some last_sent => if (now - last_sent) / 60 < 30 then st else doSend
    | none => doSend
  | none => doSend

/-- `send_sms_for_existing_alert` (engine.py lines 290-325), the SMS
counterpart of `send_email_for_existing_alert`. -/
def send_sms_for_existing_alert (now : Rat) (alertId : Nat) (st : EngineState) :
    EngineState :=
  let doSend : EngineState :=
    { st with
      sends := SendEvent.smsExisting alertId :: st.sends
      cooldowns := setCooldownSms st.cooldowns alertId now }
  match lookupCooldown st.cooldowns alertId with
  | some entry =>
    match entry.last_sms_sent with
    | some last_sent => if (now - last_sent) / 60 < 30 then st else doSend
    | none => doSend
  | none => doSend

/-- `handle_alert_trigger(rule, host, value, is_email_alert, is_sms_alert)`
(engine.py lines 186-251).  If an alert with status `triggered` already
exists for (rule id, host), no event row is created and only the
cooldown-gated channel sends may run.  Otherwise a new `triggered` event row
is inserted, the websocket broadcast fires, and the direct email / SMS
senders run according to the same channel conditions. -/
def handle_alert_trigger (rule : Rule) (host : String) (value : Rat)
    (is_email_alert : Bool) (is_sms_alert : Bool) (now : Rat) (st : EngineState) :
    EngineState :=
  let emailCond := is_email_alert ||
    (rule.email_threshold == none && rule.notifications.email_enabled)
  let smsCond := is_sms_alert ||
    (rule.sms_threshold == none && rule.notifications.sms_enabled)
  match find_open_alert st.events rule.id host with
  | some a =>
    let st1 := if emailCond then send_email_for_existing_alert now a.id st else st
    if smsCond then send_sms_for_existing_alert now a.id st1 else st1
  | none =>
    let alertId := st.nextId
    let message := generate_alert_message rule value is_email_alert false
    let ev : AlertEvent :=
      { id := alertId, rule_id := rule.id, host := host, status := "triggered"
        value := value, message := message, resolved_at := none }
    let st1 : EngineState :=
      { st with
        events := ev :: st.events
        nextId := alertId + 1
        sends := SendEvent.websocket alertId :: st.sends }
    let st2 :=
      if emailCond then
        { st1 with sends := SendEvent.emailDirect rule.id host value :: st1.sends }
      else st1
    if smsCond then
      { st2 with sends := SendEvent.smsDirect rule.id host value :: st2.sends }
    else st2

/-- The effect of the `UPDATE alert_events SET status = 'resolved',
resolved_at = CURRENT_TIMESTAMP WHERE rule_id = ... AND host = ... AND
status = 'triggered'` statement (engine.py lines 390-394) on one row. -/
def resolveEvent (rule : Rule) (host : String) (now : Rat) (e : AlertEvent) : AlertEvent :=
  if e.rule_id == rule.id && e.host == host && e.status == "triggered" then
    { e with status := "resolved", resolved_at := some now }
  else e

/-- `resolve_alert_if_needed(rule, host, current_value)` (engine.py lines
374-401): when neither the main threshold nor the email threshold (only if
the email lane is configured) is breached by the current value, every
`triggered` event row for (rule id, host) is set to `resolved` with
`resolved_at` stamped; otherwise nothing changes.  Note the source consults
only the core and email lanes here. -/
def resolve_alert_if_needed (rule : Rule) (host : String) (current_value : Rat)
    (now : Rat) (st : EngineState) : EngineState :=
  let is_main_breached := is_threshold_breached rule current_value
  let is_email_breached :=
    if rule.notifications.email_enabled && rule.email_threshold.isSome then
      is_threshold_breached rule current_value rule.email_threshold
    else false
  if !is_main_breached && !is_email_breached then
    { st with events := st.events.map (resolveEvent rule host now) }
  else st

/-- Splitting a character list on every occurrence of a separator, the
semantics of the Python `str.split` with a one-character separator (empty
input gives one empty chunk, adjacent separators give empty chunks). -/
def splitListOn (sep : Char) : List Char → List (List Char)
  | [] => [[]]
  | c :: cs =>
    let r := splitListOn sep cs
    if c = sep then [] :: r
    else
      match r with
      | [] => [[c]]
      | h :: t => (c :: h) :: t

/-- The `rule['metric_type'].split('.')` of the processing loop (engine.py
line 457), as a structurally recursive function on the underlying character
list (so that it evaluates inside the kernel). -/
def pySplitDot (s : String) : List String :=
  (splitListOn '.' s.data).map fun l => String.mk l

/-- The core-lane fire condition of the rule loop (engine.py line 480): the
current value breaches the main threshold AND the just-updated consecutive
breach counter equals the rule's required `breach_count` (`None` compares
unequal to every counter, as in Python).  `s0` is the (rule, host) entry
before the evaluation, so the counter read here is the one stored by
`record_last_value` on the same sample. -/
def coreFire (rule : Rule) (s0 : Option BreachState) (value : Rat) (timestamp : String) :
    Bool :=
  is_threshold_breached rule value &&
    (some (record_last_value rule value timestamp s0).breach_count == rule.breach_count)

/-- The body of the rule loop of `process_metric_for_alerts` (engine.py lines
435-502), by structural recursion over the fetched rule list: per rule, the
enabled / host-target / metric-type / field-presence guards each `continue`
to the next rule; otherwise the value is recorded, the core lane fire
condition (line 480), the email lane (lines 486-491) and the SMS lane (lines
494-497) each may call `handle_alert_trigger`, and `resolve_alert_if_needed`
always runs last. -/
def process_metric_for_alerts (measurement host : String)
    (fields : List (String × Rat)) (timestamp : String) (now : Rat) :
    List Rule → EngineState → EngineState
  | [], st => st
  | rule :: rest, st =>
    let next := process_metric_for_alerts measurement host fields timestamp now rest
    if !rule.enabled then next st
    else if !host_matches_rule rule host then next st
    else
      match pySplitDot rule.metric_type with
      | [m, field_name] =>
        if m != measurement then next st
        else
          match fields.lookup field_name with
          | none => next st
          | some current_value =>
            let key := (rule.id, host)
            let s2 := record_last_value rule current_value timestamp
              (lookupState st.alertState key)
            let st1 := { st with alertState := setState st.alertState key s2 }
            let st2 :=
              if coreFire rule (lookupState st.alertState key) current_value timestamp then
                handle_alert_trigger rule host current_value false false now st1
              else st1
            let st3 :=
              if rule.notifications.email_enabled && rule.email_threshold.isSome then
                if is_email_alert_triggered rule (lookupState st2.alertState key) then
                  handle_alert_trigger rule host current_value true false now st2
                else st2
              else st2
            let st4 :=
              if rule.notifications.sms_enabled && rule.sms_threshold.isSome then
                if is_sms_alert_triggered rule (lookupState st3.alertState key) then
                  handle_alert_trigger rule host current_value false true now st3
                else st3
              else st3
            next (resolve_alert_if_needed rule host current_value now st4)
      | _ => next st

/-- One call into the engine that can touch the `alert_events` table: a
direct alert trigger, a resolution attempt, or a whole
`process_metric_for_alerts` pass (which itself only calls the former two on
the table). -/
inductive EngineOp where
  | trigger (rule : Rule) (host : String) (value : Rat)
      (isEmailAlert isSmsAlert : Bool) (now : Rat)
  | resolve (rule : Rule) (host : String) (value : Rat) (now : Rat)
  | process (measurement host : String) (fields : List (String × Rat))
      (timestamp : String) (now : Rat) (rules : List Rule)

/-- Interpretation of one engine call on the engine state. -/
def applyOp : EngineOp → EngineState → EngineState
  | EngineOp.trigger rule host value ie is now, st =>
    handle_alert_trigger rule host value ie is now st
  | EngineOp.resolve rule host value now, st =>
    resolve_alert_if_needed rule host value now st
  | EngineOp.process measurement host fields timestamp now rules, st =>
    process_metric_for_alerts measurement host fields timestamp now rules st

/-- The engine state reached from the initial state by a sequence of engine
calls. -/
def runOps (ops : List EngineOp) : EngineState :=
  ops.foldl (fun st op => applyOp op st) initEngineState

/-! ### Frame lemmas for the lane-check functions -/

theorem cet_breach_count (rule : Rule) (v : Rat) (s : BreachState) :
    (check_email_threshold_breach rule v s).breach_count = s.breach_count := by
  unfold check_email_threshold_breach
  split
  · rfl
  · split
    · rfl
    · split
      · rfl
      · split <;> rfl

theorem cet_sms_breach_count (rule : Rule) (v : Rat) (s : BreachState) :
    (check_email_threshold_breach rule v s).sms_breach_count = s.sms_breach_count := by
  unfold check_email_threshold_breach
  split
  · rfl
  · split
    · rfl
    · split
      · rfl
      · split <;> rfl

theorem cet_last_email_sent (rule : Rule) (v : Rat) (s : BreachState) :
    (check_email_threshold_breach rule v s).last_email_sent = s.last_email_sent := by
  unfold check_email_threshold_breach
  split
  · rfl
  · split
    · rfl
    · split
      · rfl
      · split <;> rfl

theorem cet_last_sms_sent (rule : Rule) (v : Rat) (s : BreachState) :
    (check_email_threshold_breach rule v s).last_sms_sent = s.last_sms_sent := by
  unfold check_email_threshold_breach
  split
  · rfl
  · split
    · rfl
    · split
      · rfl
      · split <;> rfl

theorem cst_breach_count (rule : Rule) (v : Rat) (s : BreachState) :
    (check_sms_threshold_breach rule v s).breach_count = s.breach_count := by
  unfold check_sms_threshold_breach
  split
  · rfl
  · split
    · rfl
    · split
      · rfl
      · split <;> rfl

theorem cst_email_breach_count (rule : Rule) (v : Rat) (s : BreachState) :
    (check_sms_threshold_breach rule v s).email_breach_count = s.email_breach_count := by
  unfold check_sms_threshold_breach
  split
  · rfl
  · split
    · rfl
    · split
      · rfl
      · split <;> rfl

theorem cst_last_email_sent (rule : Rule) (v : Rat) (s : BreachState) :
    (check_sms_threshold_breach rule v s).last_email_sent = s.last_email_sent := by
  unfold check_sms_threshold_breach
  split
  · rfl
  · split
    · rfl
    · split
      · rfl
      · split <;> rfl

theorem cst_last_sms_sent (rule : Rule) (v : Rat) (s : BreachState) :
    (check_sms_threshold_breach rule v s).last_sms_sent = s.last_sms_sent := by
  unfold check_sms_threshold_breach
  split
  · rfl
  · split
    · rfl
    · split
      · rfl
      · split <;> rfl

theorem cet_inactive (rule : Rule) (v : Rat) (s : BreachState)
    (h : rule.notifications.email_enabled = false ∨ rule.email_threshold = none) :
    check_email_threshold_breach rule v s = s := by
  unfold check_email_threshold_breach
  rcases h with h | h <;> simp [h]

theorem cst_inactive (rule : Rule) (v : Rat) (s : BreachState)
    (h : rule.notifications.sms_enabled = false ∨ rule.sms_threshold = none) :
    check_sms_threshold_breach rule v s = s := by
  unfold check_sms_threshold_breach
  rcases h with h | h <;> simp [h]

theorem record_breach_count (rule : Rule) (v : Rat) (t : String) (s : BreachState) :
    (record_last_value rule v t (some s)).breach_count =
      (if is_threshold_breached rule v then s.breach_count + 1 else 0) := by
  unfold record_last_value
  simp only [Option.getD_some, cst_breach_count, cet_breach_count]
  split
  · rfl
  · split
    · rfl
    · omega

theorem core_update_email_count (rule : Rule) (v : Rat) (s : BreachState) :
    (if is_threshold_breached rule v then { s with breach_count := s.breach_count + 1 }
     else if s.breach_count > 0 then { s with breach_count := 0 } else s).email_breach_count
      = s.email_breach_count := by
  split
  · rfl
  · split <;> rfl

theorem core_update_sms_count (rule : Rule) (v : Rat) (s : BreachState) :
    (if is_threshold_breached rule v then { s with breach_count := s.breach_count + 1 }
     else if s.breach_count > 0 then { s with breach_count := 0 } else s).sms_breach_count
      = s.sms_breach_count := by
  split
  · rfl
  · split <;> rfl

theorem core_update_last_email_sent (rule : Rule) (v : Rat) (s : BreachState) :
    (if is_threshold_breached rule v then { s with breach_count := s.breach_count + 1 }
     else if s.breach_count > 0 then { s with breach_count := 0 } else s).last_email_sent
      = s.last_email_sent := by
  split
  · rfl
  · split <;> rfl

theorem core_update_last_sms_sent (rule : Rule) (v : Rat) (s : BreachState) :
    (if is_threshold_breached rule v then { s with breach_count := s.breach_count + 1 }
     else if s.breach_count > 0 then { s with breach_count := 0 } else s).last_sms_sent
      = s.last_sms_sent := by
  split
  · rfl
  · split <;> rfl

theorem cet_email_count (rule : Rule) (v : Rat) (s : BreachState) :
    (check_email_threshold_breach rule v s).email_breach_count =
      if rule.notifications.email_enabled && rule.email_threshold.isSome then
        (if is_threshold_breached rule v rule.email_threshold then s.email_breach_count + 1
         else 0)
      else s.email_breach_count := by
  unfold check_email_threshold_breach
  cases he : rule.notifications.email_enabled
  · simp [he]
  · cases ht : rule.email_threshold
    · simp [he, ht]
    · simp [he, ht]
      split
      · rfl
      · split
        · rfl
        · omega

theorem cst_sms_count (rule : Rule) (v : Rat) (s : BreachState) :
    (check_sms_threshold_breach rule v s).sms_breach_count =
      if rule.notifications.sms_enabled && rule.sms_threshold.isSome then
        (if is_threshold_breached rule v rule.sms_threshold then s.sms_breach_count + 1
         else 0)
      else s.sms_breach_count := by
  unfold check_sms_threshold_breach
  cases he : rule.notifications.sms_enabled
  · simp [he]
  · cases ht : rule.sms_threshold
    · simp [he, ht]
    · simp [he, ht]
      split
      · rfl
      · split
        · rfl
        · omega

theorem record_email_breach_count (rule : Rule) (v : Rat) (t : String) (s : BreachState) :
    (record_last_value rule v t (some s)).email_breach_count =
      if rule.notifications.email_enabled && rule.email_threshold.isSome then
        (if is_threshold_breached rule v rule.email_threshold then s.email_breach_count + 1
         else 0)
      else s.email_breach_count := by
  unfold record_last_value
  simp only [Option.getD_some, cst_email_breach_count, cet_email_count,
    core_update_email_count]

theorem record_sms_breach_count (rule : Rule) (v : Rat) (t : String) (s : BreachState) :
    (record_last_value rule v t (some s)).sms_breach_count =
      if rule.notifications.sms_enabled && rule.sms_threshold.isSome then
        (if is_threshold_breached rule v rule.sms_threshold then s.sms_breach_count + 1
         else 0)
      else s.sms_breach_count := by
  unfold record_last_value
  simp only [Option.getD_some, cst_sms_count, cet_sms_breach_count, core_update_sms_count]

theorem record_last_email_sent (rule : Rule) (v : Rat) (t : String) (s : BreachState) :
    (record_last_value rule v t (some s)).last_email_sent = s.last_email_sent := by
  unfold record_last_value
  simp only [Option.getD_some, cst_last_email_sent, cet_last_email_sent,
    core_update_last_email_sent]

theorem record_last_sms_sent (rule : Rule) (v : Rat) (t : String) (s : BreachState) :
    (record_last_value rule v t (some s)).last_sms_sent = s.last_sms_sent := by
  unfold record_last_value
  simp only [Option.getD_some, cst_last_sms_sent, cet_last_sms_sent,
    core_update_last_sms_sent]

/-! ### Concrete configurations used by witnesses and counterexamples -/

/-- A target row of type `all`. -/
def targetAll : Target := { target_type := "all", target_id := "" }

/-- A plain CPU rule with only the core lane configured. -/
def ruleCpu : Rule :=
  { id := "rule-1", name := "cpu high", metric_type := "cpu.percent"
    comparison := "above", threshold := 90, enabled := true, breach_count := some 3
    email_threshold := none, email_breach_count := none
    sms_threshold := none, sms_breach_count := none
    targets := [targetAll]
    notifications := { email_enabled := false, sms_enabled := false } }

/-- A rule with `equal` comparison. -/
def ruleEq : Rule := { ruleCpu with comparison := "equal", threshold := 42 }

/-- A rule with email and SMS lanes both configured and enabled. -/
def ruleLanes : Rule :=
  { id := "rule-2", name := "mem high", metric_type := "mem.percent"
    comparison := "above", threshold := 90, enabled := true, breach_count := some 2
    email_threshold := some 95, email_breach_count := some 2
    sms_threshold := some 97, sms_breach_count := some 2
    targets := [targetAll]
    notifications := { email_enabled := true, sms_enabled := true } }

/-- A rule whose email lane is disabled and whose SMS lane has no threshold. -/
def ruleMixed : Rule :=
  { ruleCpu with
    email_threshold := some 95
    sms_threshold := none
    notifications := { email_enabled := false, sms_enabled := true } }

/-- A rule with an empty target list. -/
def ruleNoTargets : Rule := { ruleCpu with targets := [] }

/-- A breach state with nonzero counters in every lane. -/
def stateBusy : BreachState :=
  { initBreachState with breach_count := 7, email_breach_count := 5, sms_breach_count := 4 }

/-! ### C4 -/

/-- C4: `is_threshold_breached` returns `value > threshold` for comparison
`above`, `value < threshold` for `below`, exact equality for `equal`, and
`false` for every unknown comparison string; as a Lean function it is pure
and total by construction, so it has no side effects and raises no error. -/
theorem C4_threshold_comparison_cases (rule : Rule) (value : Rat) (threshold : Option Rat) :
    (rule.comparison = "above" →
      is_threshold_breached rule value threshold
        = decide (value > threshold.getD rule.threshold)) ∧
    (rule.comparison = "below" →
      is_threshold_breached rule value threshold
        = decide (value < threshold.getD rule.threshold)) ∧
    (rule.comparison = "equal" →
      is_threshold_breached rule value threshold
        = decide (value = threshold.getD rule.threshold)) ∧
    (rule.comparison ≠ "above" → rule.comparison ≠ "below" → rule.comparison ≠ "equal" →
      is_threshold_breached rule value threshold = false) := by
  refine ⟨fun h => ?_, fun h => ?_, fun h => ?_, fun h1 h2 h3 => ?_⟩
  · simp [is_threshold_breached, h]
  · simp [is_threshold_breached, h]
  · by_cases hv : value = threshold.getD rule.threshold <;>
      simp [is_threshold_breached, h, hv]
  · simp [is_threshold_breached, h1, h2, h3]

/-- Witness for C4 at the concrete rule `ruleEq` and value 42. -/
theorem C4_witness : is_threshold_breached ruleEq 42 none = decide ((42 : Rat) = 42) :=
  (C4_threshold_comparison_cases ruleEq 42 none).2.2.1 rfl

/-! ### C5 -/

/-- C5: for each lane, a single evaluation with a value that does not breach
that lane's threshold resets the lane's consecutive-breach counter to 0,
whatever the prior counter was (the channel lanes are read with their
configuration active, since a lane without an enabled channel and a set
threshold has no threshold to compare against). -/
theorem C5_nonbreach_resets_counters (rule : Rule) (s : BreachState) (v : Rat) (t : String) :
    (is_threshold_breached rule v = false →
      (record_last_value rule v t (some s)).breach_count = 0) ∧
    (∀ et, rule.notifications.email_enabled = true → rule.email_threshold = some et →
      is_threshold_breached rule v (some et) = false →
      (record_last_value rule v t (some s)).email_breach_count = 0) ∧
    (∀ u, rule.notifications.sms_enabled = true → rule.sms_threshold = some u →
      is_threshold_breached rule v (some u) = false →
      (record_last_value rule v t (some s)).sms_breach_count = 0) := by
  refine ⟨fun h => ?_, fun et he ht h => ?_, fun u he ht h => ?_⟩
  · rw [record_breach_count]; simp [h]
  · rw [record_email_breach_count]; simp [he, ht, h]
  · rw [record_sms_breach_count]; simp [he, ht, h]

/-- Witness for C5: one non-breaching sample (50 against thresholds 90/95/97)
clears all three counters of `stateBusy` (7, 5, 4) at once. -/
theorem C5_witness :
    (record_last_value ruleLanes 50 "t1" (some stateBusy)).breach_count = 0 ∧
    (record_last_value ruleLanes 50 "t1" (some stateBusy)).email_breach_count = 0 ∧
    (record_last_value ruleLanes 50 "t1" (some stateBusy)).sms_breach_count = 0 :=
  ⟨(C5_nonbreach_resets_counters ruleLanes stateBusy 50 "t1").1 (by decide),
   (C5_nonbreach_resets_counters ruleLanes stateBusy 50 "t1").2.1 95 rfl rfl (by decide),
   (C5_nonbreach_resets_counters ruleLanes stateBusy 50 "t1").2.2 97 rfl rfl (by decide)⟩

/-! ### C10 -/

/-- C10: an evaluation leaves `email_breach_count` unchanged whenever the
email channel is disabled or `email_threshold` is unset, likewise for
`sms_breach_count`; and the fields other than `last_value`, `last_check` and
the lane counters (the last-sent markers) are never mutated by an
evaluation. -/
theorem C10_record_frame (rule : Rule) (s : BreachState) (v : Rat) (t : String) :
    ((rule.notifications.email_enabled = false ∨ rule.email_threshold = none) →
      (record_last_value rule v t (some s)).email_breach_count = s.email_breach_count) ∧
    ((rule.notifications.sms_enabled = false ∨ rule.sms_threshold = none) →
      (record_last_value rule v t (some s)).sms_breach_count = s.sms_breach_count) ∧
    (record_last_value rule v t (some s)).last_email_sent = s.last_email_sent ∧
    (record_last_value rule v t (some s)).last_sms_sent = s.last_sms_sent := by
  refine ⟨fun h => ?_, fun h => ?_, record_last_email_sent rule v t s,
    record_last_sms_sent rule v t s⟩
  · rw [record_email_breach_count]; rcases h with h | h <;> simp [h]
  · rw [record_sms_breach_count]; rcases h with h | h <;> simp [h]

/-- Witness for C10: with email disabled and no SMS threshold, a breaching
sample leaves both channel counters of `stateBusy` unchanged. -/
theorem C10_witness :
    (record_last_value ruleMixed 95 "t1" (some stateBusy)).email_breach_count
      = stateBusy.email_breach_count ∧
    (record_last_value ruleMixed 95 "t1" (some stateBusy)).sms_breach_count
      = stateBusy.sms_breach_count :=
  ⟨(C10_record_frame ruleMixed stateBusy 95 "t1").1 (Or.inl rfl),
   (C10_record_frame ruleMixed stateBusy 95 "t1").2.1 (Or.inr rfl)⟩

/-! ### C9 -/

/-- C9: a rule whose target list is empty matches no host, and the
`process_metric_for_alerts` loop treats such a rule exactly as if it were
absent from the rule list. -/
theorem C9_empty_targets_skip (rule : Rule) (h : rule.targets = []) :
    (∀ host, host_matches_rule rule host = false) ∧
    (∀ measurement host fields timestamp now rest st,
      process_metric_for_alerts measurement host fields timestamp now (rule :: rest) st =
        process_metric_for_alerts measurement host fields timestamp now rest st) := by
  constructor
  · intro host
    simp [host_matches_rule, h]
  · intro measurement host fields timestamp now rest st
    have hm : host_matches_rule rule host = false := by simp [host_matches_rule, h]
    rw [process_metric_for_alerts]
    simp [hm]

/-- Witness for C9 at a concrete targetless rule and a one-rule list. -/
theorem C9_witness :
    host_matches_rule ruleNoTargets "h1" = false ∧
    process_metric_for_alerts "cpu" "h1" [("percent", 95)] "t1" 0 [ruleNoTargets]
        initEngineState =
      process_metric_for_alerts "cpu" "h1" [("percent", 95)] "t1" 0 [] initEngineState :=
  ⟨(C9_empty_targets_skip ruleNoTargets rfl).1 "h1",
   (C9_empty_targets_skip ruleNoTargets rfl).2 "cpu" "h1" [("percent", 95)] "t1" 0 []
     initEngineState⟩

/-! ### C2: edge-triggered core lane over evaluation sequences -/

/-- A sequence of evaluations of one (rule, host) pair: each sample is a
(value, timestamp) pair fed through `record_last_value`, starting from an
existing breach state. -/
def runValues (rule : Rule) (s : BreachState) (samples : List (Rat × String)) :
    BreachState :=
  samples.foldl (fun st p => record_last_value rule p.1 p.2 (some st)) s

theorem runValues_append (rule : Rule) (s : BreachState)
    (xs ys : List (Rat × String)) :
    runValues rule s (xs ++ ys) = runValues rule (runValues rule s xs) ys := by
  simp [runValues, List.foldl_append]

theorem runValues_all_breached (rule : Rule) (samples : List (Rat × String))
    (h : ∀ p ∈ samples, is_threshold_breached rule p.1 = true) (s : BreachState) :
    (runValues rule s samples).breach_count = s.breach_count + samples.length := by
  induction samples generalizing s with
  | nil => simp [runValues]
  | cons p ps ih =>
    have hcons : runValues rule s (p :: ps)
        = runValues rule (record_last_value rule p.1 p.2 (some s)) ps := rfl
    rw [hcons, ih (fun q hq => h q (List.mem_cons_of_mem _ hq)), record_breach_count]
    rw [if_pos (h p (List.mem_cons_self _ _))]
    simp
    omega

theorem coreFire_iff (rule : Rule) (n : Nat) (hn : rule.breach_count = some n)
    (s : BreachState) (v : Rat) (t : String) :
    coreFire rule (some s) v t = true ↔
      (is_threshold_breached rule v = true ∧ s.breach_count + 1 = n) := by
  unfold coreFire
  rw [record_breach_count, hn]
  cases hb : is_threshold_breached rule v
  · simp [hb]
  · simp [hb]

/-- C2: with required core `breach_count = n`, the core lane fire condition
holds on an evaluation exactly when the sample breaches and the counter
transitions from n - 1 to n; consequently, once it fires, it cannot fire on a
later evaluation of the same (rule, host) pair unless some intermediate
sample was non-breaching (which by `record_breach_count` resets the counter
to 0, starting a new episode). -/
theorem C2_core_edge_trigger (rule : Rule) (n : Nat) (hn : rule.breach_count = some n) :
    (∀ (s : BreachState) (v : Rat) (t : String),
      coreFire rule (some s) v t = true ↔
        (is_threshold_breached rule v = true ∧ s.breach_count + 1 = n)) ∧
    (∀ (s0 : BreachState) (xs : List (Rat × String)) (p : Rat × String)
      (ys : List (Rat × String)) (q : Rat × String),
      coreFire rule (some (runValues rule s0 xs)) p.1 p.2 = true →
      coreFire rule (some (runValues rule s0 (xs ++ p :: ys))) q.1 q.2 = true →
      ∃ u ∈ ys, is_threshold_breached rule u.1 = false) := by
  constructor
  · exact coreFire_iff rule n hn
  · intro s0 xs p ys q h1 h2
    by_contra hno
    push_neg at hno
    simp only [Bool.not_eq_false] at hno
    obtain ⟨hbp, hcp⟩ := (coreFire_iff rule n hn _ p.1 p.2).mp h1
    obtain ⟨hbq, hcq⟩ := (coreFire_iff rule n hn _ q.1 q.2).mp h2
    have hall : ∀ u ∈ p :: ys, is_threshold_breached rule u.1 = true := by
      intro u hu
      rcases List.mem_cons.mp hu with h | h
      · rw [h]; exact hbp
      · exact hno u h
    have hlen : (runValues rule s0 (xs ++ p :: ys)).breach_count
        = (runValues rule s0 xs).breach_count + (ys.length + 1) := by
      rw [runValues_append, runValues_all_breached rule (p :: ys) hall]
      simp
    omega

/-- Witness for C2: with `ruleCpu` (threshold 90, required count 3), the core
lane fires on the third consecutive breaching sample. -/
theorem C2_witness :
    coreFire ruleCpu (some (runValues ruleCpu initBreachState [(95, "t1"), (95, "t2")]))
      95 "t3" = true :=
  ((C2_core_edge_trigger ruleCpu 3 rfl).1
    (runValues ruleCpu initBreachState [(95, "t1"), (95, "t2")]) 95 "t3").mpr (by decide)

/-! ### C1: at most one open alert per (rule, host) -/

/-- An event row counts as open for (rid, h) when it belongs to that pair and
its status is not `resolved`. -/
def openFor (rid h : String) (e : AlertEvent) : Bool :=
  e.rule_id == rid && e.host == h && !(e.status == "resolved")

/-- At most one open (status not `resolved`) event per (rule_id, host). -/
def atMostOneOpen (events : List AlertEvent) : Prop :=
  ∀ rid h, (events.filter (openFor rid h)).length ≤ 1

/-- Every status the engine ever writes is `triggered` or `resolved` (the
engine never writes any other status value). -/
def statusLegal (events : List AlertEvent) : Prop :=
  ∀ e ∈ events, e.status = "triggered" ∨ e.status = "resolved"

/-- The inductive invariant carried across engine calls. -/
def EngineInv (st : EngineState) : Prop :=
  statusLegal st.events ∧ atMostOneOpen st.events

theorem send_email_existing_events (now : Rat) (aid : Nat) (st : EngineState) :
    (send_email_for_existing_alert now aid st).events = st.events := by
  simp only [send_email_for_existing_alert]
  split
  · split
    · split <;> rfl
    · rfl
  · rfl

theorem send_sms_existing_events (now : Rat) (aid : Nat) (st : EngineState) :
    (send_sms_for_existing_alert now aid st).events = st.events := by
  simp only [send_sms_for_existing_alert]
  split
  · split
    · split <;> rfl
    · rfl
  · rfl

theorem handle_events_existing (rule : Rule) (host : String) (value : Rat)
    (b1 b2 : Bool) (now : Rat) (st : EngineState) (a : AlertEvent)
    (h : find_open_alert st.events rule.id host = some a) :
    (handle_alert_trigger rule host value b1 b2 now st).events = st.events := by
  simp only [handle_alert_trigger, h]
  split
  · rw [send_sms_existing_events]
    split
    · rw [send_email_existing_events]
    · rfl
  · split
    · rw [send_email_existing_events]
    · rfl

theorem handle_events_new (rule : Rule) (host : String) (value : Rat)
    (b1 b2 : Bool) (now : Rat) (st : EngineState)
    (h : find_open_alert st.events rule.id host = none) :
    (handle_alert_trigger rule host value b1 b2 now st).events =
      { id := st.nextId, rule_id := rule.id, host := host, status := "triggered"
        value := value, message := generate_alert_message rule value b1 false
        resolved_at := none } :: st.events := by
  simp only [handle_alert_trigger, h]
  split <;> split <;> rfl

theorem no_open_of_find_none (events : List AlertEvent) (rid h : String)
    (hleg : statusLegal events)
    (hfind : find_open_alert events rid h = none) :
    events.filter (openFor rid h) = [] := by
  rw [List.filter_eq_nil_iff]
  intro e he
  have hnf := List.find?_eq_none.mp hfind e he
  intro hopen
  apply hnf
  unfold openFor at hopen
  simp only [Bool.and_eq_true, Bool.not_eq_true', beq_eq_false_iff_ne] at hopen
  obtain ⟨⟨h1, h2⟩, h3⟩ := hopen
  have hst : e.status = "triggered" := by
    rcases hleg e he with h | h
    · exact h
    · exact absurd h h3
  simp [beq_iff_eq] at h1 h2
  simp [h1, h2, hst]

theorem handle_preserves_inv (rule : Rule) (host : String) (value : Rat)
    (b1 b2 : Bool) (now : Rat) (st : EngineState) (h : EngineInv st) :
    EngineInv (handle_alert_trigger rule host value b1 b2 now st) := by
  cases hf : find_open_alert st.events rule.id host with
  | some a =>
    constructor
    · rw [handle_events_existing rule host value b1 b2 now st a hf]; exact h.1
    · rw [handle_events_existing rule host value b1 b2 now st a hf]; exact h.2
  | none =>
    have hev := handle_events_new rule host value b1 b2 now st hf
    constructor
    · rw [hev]
      intro e he
      rcases List.mem_cons.mp he with h1 | h1
      · left; rw [h1]
      · exact h.1 e h1
    · rw [hev]
      intro rid hh
      rw [List.filter_cons]
      by_cases hp : openFor rid hh
          { id := st.nextId, rule_id := rule.id, host := host, status := "triggered"
            value := value, message := generate_alert_message rule value b1 false
            resolved_at := none } = true
      · rw [if_pos hp]
        unfold openFor at hp
        simp only [Bool.and_eq_true, beq_iff_eq] at hp
        obtain ⟨⟨h1, h2⟩, _⟩ := hp
        rw [h1, h2] at hf
        rw [no_open_of_find_none st.events rid hh h.1 hf]
        simp
      · rw [if_neg hp]
        exact h.2 rid hh

theorem length_filter_map_le {α : Type} (g : α → α) (p : α → Bool)
    (hg : ∀ a, p (g a) = true → g a = a) (l : List α) :
    ((l.map g).filter p).length ≤ (l.filter p).length := by
  induction l with
  | nil => simp
  | cons a l ih =>
    simp only [List.map_cons, List.filter_cons]
    by_cases hpa : p (g a) = true
    · have ha : g a = a := hg a hpa
      rw [if_pos hpa, ha, if_pos (ha ▸ hpa)]
      simpa using ih
    · rw [if_neg hpa]
      by_cases hpb : p a = true
      · rw [if_pos hpb]
        exact Nat.le_succ_of_le ih
      · rw [if_neg hpb]
        exact ih

theorem resolveEvent_open_fixed (rule : Rule) (host : String) (now : Rat)
    (rid hh : String) (e : AlertEvent)
    (hp : openFor rid hh (resolveEvent rule host now e) = true) :
    resolveEvent rule host now e = e := by
  unfold resolveEvent at hp ⊢
  split at hp
  · unfold openFor at hp
    simp at hp
  · next hc => rw [if_neg hc]

theorem resolve_map_inv (rule : Rule) (host : String) (now : Rat)
    (st : EngineState) (h : EngineInv st) :
    EngineInv { st with events := st.events.map (resolveEvent rule host now) } := by
  constructor
  · intro e he
    simp only [List.mem_map] at he
    obtain ⟨e0, he0, heq⟩ := he
    unfold resolveEvent at heq
    split at heq
    · right; rw [← heq]
    · rw [← heq]; exact h.1 e0 he0
  · intro rid hh
    calc ((st.events.map (resolveEvent rule host now)).filter (openFor rid hh)).length
        ≤ (st.events.filter (openFor rid hh)).length :=
          length_filter_map_le _ _ (resolveEvent_open_fixed rule host now rid hh) _
      _ ≤ 1 := h.2 rid hh

theorem resolve_preserves_inv (rule : Rule) (host : String) (v : Rat) (now : Rat)
    (st : EngineState) (h : EngineInv st) :
    EngineInv (resolve_alert_if_needed rule host v now st) := by
  have hmap := resolve_map_inv rule host now st h
  unfold resolve_alert_if_needed
  dsimp only
  repeat' split
  all_goals first | exact h | exact hmap

theorem inv_ite {c : Prop} [Decidable c] {x y : EngineState}
    (hx : EngineInv x) (hy : EngineInv y) : EngineInv (if c then x else y) := by
  split
  · exact hx
  · exact hy

theorem process_preserves_inv (measurement host : String) (fields : List (String × Rat))
    (timestamp : String) (now : Rat) :
    ∀ (rules : List Rule) (st : EngineState), EngineInv st →
      EngineInv (process_metric_for_alerts measurement host fields timestamp now rules st) := by
  intro rules
  induction rules with
  | nil => intro st h; exact h
  | cons rule rest ih =>
    intro st h
    rw [process_metric_for_alerts]
    repeat' first
      | exact h
      | apply ih
      | apply resolve_preserves_inv
      | apply handle_preserves_inv
      | split

theorem applyOp_preserves_inv (op : EngineOp) (st : EngineState) (h : EngineInv st) :
    EngineInv (applyOp op st) := by
  cases op with
  | trigger rule host value b1 b2 now => exact handle_preserves_inv rule host value b1 b2 now st h
  | resolve rule host value now => exact resolve_preserves_inv rule host value now st h
  | process measurement host fields timestamp now rules =>
    exact process_preserves_inv measurement host fields timestamp now rules st h

theorem initEngineState_inv : EngineInv initEngineState := by
  constructor
  · intro e he
    exact absurd he (List.not_mem_nil e)
  · intro rid hh
    simp [initEngineState]

theorem runOps_inv (ops : List EngineOp) : EngineInv (runOps ops) := by
  have key : ∀ (l : List EngineOp) (st : EngineState), EngineInv st →
      EngineInv (l.foldl (fun st op => applyOp op st) st) := by
    intro l
    induction l with
    | nil => intro st h; exact h
    | cons op l ih => intro st h; exact ih _ (applyOp_preserves_inv op st h)
  exact key ops initEngineState initEngineState_inv

/-- C1: in every state reachable from the initial state by engine calls,
there is at most one event with status other than `resolved` per
(rule_id, host) pair; and whenever `handle_alert_trigger` runs while an open
alert already exists for (rule_id, host), no new event row is created. -/
theorem C1_at_most_one_open_alert :
    (∀ ops : List EngineOp, atMostOneOpen (runOps ops).events) ∧
    (∀ (rule : Rule) (host : String) (value : Rat) (b1 b2 : Bool) (now : Rat)
      (st : EngineState) (a : AlertEvent),
      find_open_alert st.events rule.id host = some a →
      (handle_alert_trigger rule host value b1 b2 now st).events = st.events) := by
  constructor
  · intro ops
    exact (runOps_inv ops).2
  · intro rule host value b1 b2 now st a hfind
    exact handle_events_existing rule host value b1 b2 now st a hfind

/-- An open event row used by the C1 witness. -/
def eventOpen : AlertEvent :=
  { id := 0, rule_id := "rule-1", host := "h1", status := "triggered", value := 95
    message := "m", resolved_at := none }

/-- An engine state that already holds one open alert for (rule-1, h1). -/
def stWithOpen : EngineState :=
  { initEngineState with events := [eventOpen], nextId := 1 }

/-- Witness for C1: triggering `ruleCpu` for host h1 while `stWithOpen`
already holds an open alert for that pair leaves the event table unchanged. -/
theorem C1_witness :
    (handle_alert_trigger ruleCpu "h1" 95 false false 0 stWithOpen).events
      = stWithOpen.events :=
  C1_at_most_one_open_alert.2 ruleCpu "h1" 95 false false 0 stWithOpen eventOpen (by decide)

/-! ### C3: resolution consults only the core and email lanes -/

/-- A rule whose SMS lane is enabled and configured (threshold 50), with no
email lane. -/
def ruleSms : Rule :=
  { id := "rule-3", name := "disk high", metric_type := "disk.percent"
    comparison := "above", threshold := 90, enabled := true, breach_count := some 1
    email_threshold := none, email_breach_count := none
    sms_threshold := some 50, sms_breach_count := some 1
    targets := [targetAll]
    notifications := { email_enabled := false, sms_enabled := true } }

/-- An open event row for (rule-3, h1). -/
def eventOpenSms : AlertEvent :=
  { id := 0, rule_id := "rule-3", host := "h1", status := "triggered", value := 95
    message := "m", resolved_at := none }

/-- An engine state holding one open alert for (rule-3, h1). -/
def stOpenSms : EngineState :=
  { initEngineState with events := [eventOpenSms], nextId := 1 }

/-- C3 counterexample: for `ruleSms` the SMS lane is enabled and still
breaching at value 60 (60 > 50), the core lane has cleared (60 is not > 90),
and `resolve_alert_if_needed` nevertheless resolves the open alert — the
claim that a still-breaching enabled channel lane prevents resolution fails
for the SMS lane, because the source only consults the core and email
lanes. -/
theorem C3_counterexample :
    ruleSms.notifications.sms_enabled = true ∧
    ruleSms.sms_threshold = some 50 ∧
    is_threshold_breached ruleSms 60 (some 50) = true ∧
    is_threshold_breached ruleSms 60 none = false ∧
    (resolve_alert_if_needed ruleSms "h1" 60 7 stOpenSms).events
      = [{ eventOpenSms with status := "resolved", resolved_at := some 7 }] := by
  decide

/-- C3 (amended): `resolve_alert_if_needed` resolves the open alerts of
(rule, host), stamping `resolved_at`, exactly when the core lane and the
enabled email lane are non-breaching against the current value; the SMS lane
is never consulted, so a breaching core or email lane blocks resolution and
nothing else does. -/
theorem C3_resolve_checks_core_and_email (rule : Rule) (host : String) (v : Rat)
    (now : Rat) (st : EngineState) :
    ((is_threshold_breached rule v = false ∧
      (rule.notifications.email_enabled = true → ∀ et, rule.email_threshold = some et →
        is_threshold_breached rule v (some et) = false)) →
      ∀ e ∈ st.events, e.rule_id = rule.id → e.host = host → e.status = "triggered" →
        { e with status := "resolved", resolved_at := some now }
          ∈ (resolve_alert_if_needed rule host v now st).events) ∧
    ((is_threshold_breached rule v = true ∨
      (rule.notifications.email_enabled = true ∧ ∃ et, rule.email_threshold = some et ∧
        is_threshold_breached rule v (some et) = true)) →
      resolve_alert_if_needed rule host v now st = st) := by
  constructor
  · intro hC e he h1 h2 h3
    have hemailb : (if rule.notifications.email_enabled && rule.email_threshold.isSome then
        is_threshold_breached rule v rule.email_threshold else false) = false := by
      cases hen : rule.notifications.email_enabled
      · simp
      · cases ht : rule.email_threshold
        · simp
        · simp [hC.2 hen _ ht, ht]
    unfold resolve_alert_if_needed
    dsimp only
    rw [hemailb, hC.1]
    simp only [Bool.not_false, Bool.and_self, if_true]
    simp only [List.mem_map]
    refine ⟨e, he, ?_⟩
    unfold resolveEvent
    rw [if_pos (by simp [h1, h2, h3])]
  · intro hB
    unfold resolve_alert_if_needed
    dsimp only
    rcases hB with hB | ⟨hen, et, ht, hbr⟩
    · simp [hB]
    · have : (if rule.notifications.email_enabled && rule.email_threshold.isSome then
          is_threshold_breached rule v rule.email_threshold else false) = true := by
        simp [hen, ht, hbr]
      rw [this]
      simp

/-- Witness for the amended C3: with both consulted lanes clear at value 40,
the open alert of `stOpenSms` is resolved and stamped. -/
theorem C3_witness :
    { eventOpenSms with status := "resolved", resolved_at := some 7 }
      ∈ (resolve_alert_if_needed ruleSms "h1" 40 7 stOpenSms).events :=
  (C3_resolve_checks_core_and_email ruleSms "h1" 40 7 stOpenSms).1
    ⟨by decide, fun hen _ _ => absurd hen (by decide)⟩
    eventOpenSms (by decide) rfl rfl rfl

/-! ### C6: 30-minute email cooldown for an existing alert -/

/-- C7: when the field named by a rule's `metric_type` is absent from the
sample's fields, the processing loop treats the rule exactly as if it were
not in the list: no state is touched for it and the remaining rules are
still processed against the unchanged state. -/
theorem C7_missing_field_skips_rule (rule : Rule) (rest : List Rule)
    (measurement host : String) (fields : List (String × Rat)) (timestamp : String)
    (now : Rat) (st : EngineState) (field_name : String)
    (hsplit : pySplitDot rule.metric_type = [measurement, field_name])
    (habsent : fields.lookup field_name = none) :
    process_metric_for_alerts measurement host fields timestamp now (rule :: rest) st =
      process_metric_for_alerts measurement host fields timestamp now rest st := by
  rw [process_metric_for_alerts, hsplit]
  simp [habsent]

/-- A rule naming a field that the witness sample does not carry. -/
def ruleMissingField : Rule := { ruleCpu with metric_type := "cpu.missing" }

/-- Witness for C7: a cpu sample carrying only the `percent` field leaves a
`cpu.missing` rule without effect. -/
theorem C7_witness :
    process_metric_for_alerts "cpu" "h1" [("percent", 95)] "t1" 0 [ruleMissingField]
        initEngineState =
      process_metric_for_alerts "cpu" "h1" [("percent", 95)] "t1" 0 [] initEngineState :=
  C7_missing_field_skips_rule ruleMissingField [] "cpu" "h1" [("percent", 95)] "t1" 0
    initEngineState "missing" (by decide) (by decide)

/-! ### C8: webhook field value parsing -/

/-- `value.replace(".", "", 1)` (webhook.py line 38): removes only the first
occurrence of a dot. -/
def removeFirstDot : List Char → List Char
  | [] => []
  | c :: cs => if c = '.' then cs else c :: removeFirstDot cs

/-- Python `str.isdigit`: non-empty and all characters are digits (modelled
over the ASCII digits; the ingestion lines carry ASCII field values). -/
def pyIsDigit (l : List Char) : Bool :=
  !l.isEmpty && l.all fun c => c.isDigit

/-- Numeric value of a digit string, as `int(value)` computes it. -/
def digitsVal (l : List Char) : Nat :=
  l.foldl (fun acc c => acc * 10 + (c.toNat - 48)) 0

/-- Numeric value of a digits-dot-digits string, as `float(value)` computes
it on the strings accepted by the webhook check (integral part, then the
fractional digits scaled down). -/
def pyFloatVal (l : List Char) : Rat :=
  let ip := l.takeWhile fun c => c ≠ '.'
  let fp := (l.dropWhile fun c => c ≠ '.').drop 1
  (digitsVal ip : Rat) + (digitsVal fp : Rat) / (10 : Rat) ^ fp.length

/-- A parsed field value: Python `int`, `float`, or the untouched string. -/
inductive FieldValue where
  | int (n : Int)
  | float (q : Rat)
  | str (s : String)
deriving DecidableEq

/-- The value conversion of the webhook field loop (webhook.py lines 38-39):
if the value with its first dot removed is all digits, parse it as a float
when it contains a dot and as an int otherwise; leave it a string if not. -/
def parse_field_value (value : String) : FieldValue :=
  if pyIsDigit (removeFirstDot value.data) then
    if value.data.contains '.' then FieldValue.float (pyFloatVal value.data)
    else FieldValue.int (digitsVal value.data)
  else FieldValue.str value

/-- Dictionary write `fields[key] = value` (webhook.py line 40). -/
def setField (m : List (String × FieldValue)) (k : String) (v : FieldValue) :
    List (String × FieldValue) :=
  match m with
  | [] => [(k, v)]
  | (k0, v0) :: rest => if k0 == k then (k0, v) :: rest else (k0, v0) :: setField rest k v

/-- The field-parsing loop of the webhook (webhook.py lines 32-40): split the
field section on commas, skip chunks that are blank after stripping or have
no `=`, split each remaining chunk at its first `=`, and store the converted
value under the key. -/
def parse_fields (fields_str : String) : List (String × FieldValue) :=
  (splitListOn ',' fields_str.data).foldl
    (fun acc fieldChars =>
      if (String.mk fieldChars).trim == "" || !fieldChars.contains '=' then acc
      else
        let key := String.mk (fieldChars.takeWhile fun c => c ≠ '=')
        let value := String.mk ((fieldChars.dropWhile fun c => c ≠ '=').drop 1)
        setField acc key (parse_field_value value))
    []

/-- What "numeric" means for the claim: at least one digit, nothing but
digits and dots, and at most one dot. -/
def isNumericLiteral (s : String) : Bool :=
  s.data.any Char.isDigit && (s.data.all fun c => c.isDigit || c == '.') &&
    decide (s.data.count '.' ≤ 1)

theorem all_digit_iff_no_dot (cs : List Char) :
    (∀ x ∈ cs, x.isDigit = true) ↔
      ((∀ x ∈ cs, x.isDigit = true ∨ x = '.') ∧ cs.count '.' = 0) := by
  constructor
  · intro h
    refine ⟨fun x hx => Or.inl (h x hx), ?_⟩
    rw [List.count_eq_zero]
    intro hdot
    simpa using h _ hdot
  · rintro ⟨h, hcount⟩ x hx
    rcases h x hx with hd | hd
    · exact hd
    · subst hd
      rw [List.count_eq_zero] at hcount
      exact absurd hx hcount

theorem removeFirstDot_all_digit (l : List Char) :
    (∀ x ∈ removeFirstDot l, x.isDigit = true) ↔
      ((∀ c ∈ l, c.isDigit = true ∨ c = '.') ∧ l.count '.' ≤ 1) := by
  induction l with
  | nil => simp [removeFirstDot]
  | cons c cs ih =>
    by_cases hc : c = '.'
    · subst hc
      have hrfd : removeFirstDot ('.' :: cs) = cs := by simp [removeFirstDot]
      rw [hrfd, List.count_cons_self, all_digit_iff_no_dot]
      constructor
      · rintro ⟨h, hcount⟩
        refine ⟨?_, by omega⟩
        intro x hx
        rcases List.mem_cons.mp hx with h1 | h1
        · exact Or.inr h1
        · exact h x h1
      · rintro ⟨h, hcount⟩
        exact ⟨fun x hx => h x (List.mem_cons_of_mem _ hx), by omega⟩
    · have hrfd : removeFirstDot (c :: cs) = c :: removeFirstDot cs := by
        simp [removeFirstDot, hc]
      have hcnt : (c :: cs).count '.' = cs.count '.' :=
        List.count_cons_of_ne (fun h => hc h.symm) cs
      rw [hrfd, hcnt]
      constructor
      · intro h
        have hd : c.isDigit = true := h c (List.mem_cons_self _ _)
        have hrest := ih.mp fun x hx => h x (List.mem_cons_of_mem _ hx)
        refine ⟨?_, hrest.2⟩
        intro x hx
        rcases List.mem_cons.mp hx with h1 | h1
        · exact Or.inl (h1 ▸ hd)
        · exact hrest.1 x h1
      · rintro ⟨h, hcount⟩
        have hall := ih.mpr ⟨fun y hy => h y (List.mem_cons_of_mem _ hy), hcount⟩
        intro x hx
        rcases List.mem_cons.mp hx with h1 | h1
        · subst h1
          rcases h x (List.mem_cons_self _ _) with hd | hd
          · exact hd
          · exact absurd hd hc
        · exact hall x h1

theorem removeFirstDot_subset (l : List Char) : ∀ x ∈ removeFirstDot l, x ∈ l := by
  induction l with
  | nil => simp [removeFirstDot]
  | cons c cs ih =>
    by_cases hc : c = '.'
    · subst hc
      have hrfd : removeFirstDot ('.' :: cs) = cs := by simp [removeFirstDot]
      rw [hrfd]
      exact fun x hx => List.mem_cons_of_mem _ hx
    · have hrfd : removeFirstDot (c :: cs) = c :: removeFirstDot cs := by
        simp [removeFirstDot, hc]
      rw [hrfd]
      intro x hx
      rcases List.mem_cons.mp hx with h1 | h1
      · exact h1 ▸ List.mem_cons_self _ _
      · exact List.mem_cons_of_mem _ (ih x h1)

theorem removeFirstDot_eq_nil (l : List Char) :
    removeFirstDot l = [] ↔ (l = [] ∨ l = ['.']) := by
  cases l with
  | nil => simp [removeFirstDot]
  | cons c cs =>
    by_cases hc : c = '.'
    · subst hc
      simp [removeFirstDot]
    · simp [removeFirstDot, hc]

theorem pyIsDigit_removeFirstDot_iff (l : List Char) :
    pyIsDigit (removeFirstDot l) = true ↔
      ((∃ c ∈ l, c.isDigit = true) ∧ (∀ c ∈ l, c.isDigit = true ∨ c = '.') ∧
        l.count '.' ≤ 1) := by
  have hchar : pyIsDigit (removeFirstDot l) = true ↔
      (removeFirstDot l ≠ [] ∧ ∀ x ∈ removeFirstDot l, x.isDigit = true) := by
    unfold pyIsDigit
    rw [Bool.and_eq_true, List.all_eq_true]
    simp
  rw [hchar]
  constructor
  · rintro ⟨hne, hall⟩
    refine ⟨?_, (removeFirstDot_all_digit l).mp hall⟩
    cases hrfd : removeFirstDot l with
    | nil => exact absurd hrfd hne
    | cons x xs =>
      have hx : x ∈ removeFirstDot l := by rw [hrfd]; exact List.mem_cons_self _ _
      exact ⟨x, removeFirstDot_subset l x hx, hall x hx⟩
  · rintro ⟨⟨c, hcl, hcd⟩, hall, hcount⟩
    refine ⟨?_, (removeFirstDot_all_digit l).mpr ⟨hall, hcount⟩⟩
    intro hnil
    rcases (removeFirstDot_eq_nil l).mp hnil with h | h
    · subst h
      exact absurd hcl (List.not_mem_nil c)
    · subst h
      have : c = '.' := List.mem_singleton.mp hcl
      rw [this] at hcd
      simp at hcd

/-- C8: for every field value string of an ingestion line, the webhook
parser produces a float when the value is numeric (digits and at most one
dot, at least one digit) and contains a dot, an int when it is numeric
without a dot, and leaves every non-numeric value as the original string. -/
theorem C8_field_value_parsing (value : String) :
    (isNumericLiteral value = true → value.data.contains '.' = true →
      parse_field_value value = FieldValue.float (pyFloatVal value.data)) ∧
    (isNumericLiteral value = true → value.data.contains '.' = false →
      parse_field_value value = FieldValue.int (digitsVal value.data)) ∧
    (isNumericLiteral value = false → parse_field_value value = FieldValue.str value) := by
  have key : pyIsDigit (removeFirstDot value.data) = isNumericLiteral value := by
    rw [Bool.eq_iff_iff, pyIsDigit_removeFirstDot_iff]
    unfold isNumericLiteral
    simp [List.any_eq_true, List.all_eq_true]
    tauto
  refine ⟨fun h1 h2 => ?_, fun h1 h2 => ?_, fun h1 => ?_⟩
  · unfold parse_field_value
    rw [key, h1, if_pos rfl, h2, if_pos rfl]
  · unfold parse_field_value
    rw [key, h1, if_pos rfl, h2]
    simp
  · unfold parse_field_value
    rw [key, h1]
    simp

/-- Witness for C8 at the three value strings 12.5, 42 and up. -/
theorem C8_witness :
    parse_field_value "12.5" = FieldValue.float (pyFloatVal "12.5".data) ∧
    parse_field_value "42" = FieldValue.int (digitsVal "42".data) ∧
    parse_field_value "up" = FieldValue.str "up" :=
  ⟨(C8_field_value_parsing "12.5").1 (by decide) (by decide),
   (C8_field_value_parsing "42").2.1 (by decide) (by decide),
   (C8_field_value_parsing "up").2.2 (by decide)⟩
